import Mathlib

/-!
Verification development for the `support_installation` repository.

The repository holds two AWS Lambda handlers:

* `src/lambda_function/non-prod-lambda.py` — resizes Elastic Beanstalk
  environments between a small and a large instance class, gated by the
  tags `auto-upgrade` / `auto-degrade`, and uploads its accumulated log to
  S3 (an archived copy plus a "latest" copy) in a `finally` block.
* `src/lambda_function/non-prod-lambda1.py` — stops (at hour 14 UTC) and
  starts (at hour 2 UTC) EC2 instances gated by the tags `CNTRL-STOP` /
  `CNTRL-START`, polls each instance until it reaches its terminal state,
  and commits its accumulated log to S3.

This file shallowly embeds both handlers.  External AWS collaborators are
modelled as explicit inputs: the set of Beanstalk environments / EC2
reservations is a value, the outcome of each mutating API call is a
scripted parameter, and the sequence of states a polled instance moves
through is a scripted list that each state query consumes from.  All
definitions are executable and follow the Python source line by line; the
theorems at the end of the file settle the specification claims.
-/

namespace NonProdLambda

/-- Python `str.strip().lower()`, used by the tag checks in
`find_tagged_environments` and both `initiate_eb_environment_*`: drop
whitespace from both ends, then case-fold (the tag values at stake are
ASCII, where `Char.toLower` agrees with Python's `lower`).  Written
structurally over the character list so that concrete instances reduce
inside the kernel. -/
def pyStripLower (s : String) : String :=
  ⟨((s.data.dropWhile Char.isWhitespace).reverse.dropWhile Char.isWhitespace).reverse.map
    Char.toLower⟩

/-- Inline configuration block of `non-prod-lambda.py` (lines 8-14). -/
def APPLICATION_NAME : String := "BSQ-FINALYZER-NONPROD"

/-- Tag key gating the upgrade path (line 9). -/
def UPGRADE_TAG_KEY : String := "auto-upgrade"

/-- Target instance class of the upgrade path (line 10). -/
def UPGRADE_INSTANCE_TYPE : String := "r6a.large"

/-- Tag key gating the downgrade path (line 11). -/
def DEGRADE_TAG_KEY : String := "auto-degrade"

/-- Target instance class of the downgrade path (line 12). -/
def DEGRADE_INSTANCE_TYPE : String := "t3a.nano"

/-- S3 bucket receiving the resize handler's logs (line 13). -/
def S3_LOG_BUCKET : String := "finalyzer-nonprod-lambda-logs"

/-- An Elastic Beanstalk environment as the handler observes it through the
AWS API: its name and ARN from `describe_environments`, its raw
`ResourceTags` list from `list_tags_for_resource`, and the value that the
`describe_configuration_settings` scan (lines 86-104) would produce for the
`aws:autoscaling:launchconfiguration` / `InstanceType` option — `none` when
no such option is present or the fetch fails. -/
structure EBEnvironment where
  name : String
  arn : String
  resourceTags : List (String × String)
  instanceTypeSetting : Option String
deriving Repr, DecidableEq

/-- The dict built at lines 68-72: entries with a falsy (empty) key are
skipped; a later entry with the same key overwrites an earlier one, so a
lookup returns the last surviving value. -/
def dictGet? (tags : List (String × String)) (k : String) : Option String :=
  ((tags.filter (fun kv => kv.1 == k && kv.1 != "")).map (fun kv => kv.2)).getLast?

/-- Python `tags.get(key, "")` on the dict of lines 68-72. -/
def tagGet (tags : List (String × String)) (k : String) : String :=
  (dictGet? tags k).getD ""

/-- Python truthiness of an optional tag-key argument: `None` and the empty
string are both falsy (`if upgrade_tag_key:` at lines 77/79). -/
def truthyKey : Option String → Option String
  | none => none
  | some k => if k = "" then none else some k

/-- One of the two gate checks of lines 77-80:
`str(tags.get(key, "")).strip().lower() == "true"`, guarded by the
truthiness of the key argument. -/
def hasTagTrue (tags : List (String × String)) (key : Option String) : Bool :=
  match truthyKey key with
  | none => false
  | some k => pyStripLower (tagGet tags k) == "true"

/-- An element of the `environments_to_process` list built at lines
106-111. -/
structure ScanResult where
  name : String
  arn : String
  tags : List (String × String)
  current_instance_type : Option String
deriving Repr, DecidableEq

/-- The scan-result record lines 106-111 build for one environment: the
tags field holds the dict of lines 68-72, kept here as the association
list of entries with a non-empty key. -/
def toScanResult (e : EBEnvironment) : ScanResult :=
  ⟨e.name, e.arn, e.resourceTags.filter (fun kv => kv.1 != ""), e.instanceTypeSetting⟩

/-- Lines 53-118, `find_tagged_environments`: list the application's
environments, fetch each one's tags, keep an environment only if at least
one of the supplied gating tag keys is set to `"true"` (trimmed,
case-folded), and record its current instance type.  The error branches of
the source (a failing listing call yields an empty list, a failing config
fetch leaves the field unset) are represented by the caller passing the
corresponding inputs. -/
def find_tagged_environments (envs : List EBEnvironment)
    (upgrade_tag_key degrade_tag_key : Option String) : List ScanResult :=
  envs.filterMap (fun e =>
    let r := toScanResult e
    if hasTagTrue r.tags upgrade_tag_key || hasTagTrue r.tags degrade_tag_key then
      some r
    else
      none)

/-- The payload of an `update_environment` call (lines 146-154 and
183-191). -/
structure UpdateCall where
  applicationName : String
  environmentName : String
  optionNamespace : String
  optionName : String
  value : String
deriving Repr, DecidableEq

/-- Outcome scripted for an `update_environment` call: `none` means the
call succeeds; otherwise the raised error, distinguishing the
`ClientError` and generic `Exception` handlers of the source. -/
inductive ApiErr where
  | client (msg : String)
  | other (msg : String)
deriving Repr, DecidableEq

/-- What one call to `initiate_eb_environment_upgrade` or
`initiate_eb_environment_downgrade` produces: the Python return value, the
list of `update_environment` calls issued (empty or a singleton), and the
messages logged (each becomes one line in `log_lines`, since the in-memory
handler formats records with the default `%(message)s` formatter). -/
structure ResizeOutcome where
  result : Bool
  updates : List UpdateCall
  log : List String
deriving Repr, DecidableEq

/-- Lines 122-161, `initiate_eb_environment_upgrade`.  `updateErr` scripts
the fate of the `update_environment` call, which the source wraps in
`try/except`. -/
def initiate_eb_environment_upgrade (environment : ScanResult)
    (application_name tag_key target_type : String)
    (updateErr : Option ApiErr) : ResizeOutcome :=
  let env_name := environment.name
  let tags := environment.tags
  let current := environment.current_instance_type
  if tag_key = "" then
    ⟨false, [], ["[UPGRADE] " ++ env_name ++ ": no tag key configured; skipping."]⟩
  else if pyStripLower (tagGet tags tag_key) ≠ "true" then
    ⟨false, [], ["[UPGRADE] " ++ env_name ++ ": tag " ++ tag_key ++ " != \x27true\x27; skipping."]⟩
  else if current = some target_type then
    ⟨false, [], ["[UPGRADE] " ++ env_name ++ ": already " ++ target_type ++ "; skipping."]⟩
  else
    let call : UpdateCall :=
      ⟨application_name, env_name, "aws:autoscaling:launchconfiguration", "InstanceType", target_type⟩
    match updateErr with
    | none => ⟨true, [call], ["[UPGRADE] Update sent for " ++ env_name ++ " -> " ++ target_type]⟩
    | some (.client e) => ⟨false, [call], ["[UPGRADE] AWS Client Error for " ++ env_name ++ ": " ++ e]⟩
    | some (.other e) => ⟨false, [call], ["[UPGRADE] Unexpected error for " ++ env_name ++ ": " ++ e]⟩

/-- Lines 165-198, `initiate_eb_environment_downgrade`; textually the same
procedure as the upgrade with a `[DOWNGRADE]` log prefix. -/
def initiate_eb_environment_downgrade (environment : ScanResult)
    (application_name tag_key target_type : String)
    (updateErr : Option ApiErr) : ResizeOutcome :=
  let env_name := environment.name
  let tags := environment.tags
  let current := environment.current_instance_type
  if tag_key = "" then
    ⟨false, [], ["[DOWNGRADE] " ++ env_name ++ ": no tag key configured; skipping."]⟩
  else if pyStripLower (tagGet tags tag_key) ≠ "true" then
    ⟨false, [], ["[DOWNGRADE] " ++ env_name ++ ": tag " ++ tag_key ++ " != \x27true\x27; skipping."]⟩
  else if current = some target_type then
    ⟨false, [], ["[DOWNGRADE] " ++ env_name ++ ": already " ++ target_type ++ "; skipping."]⟩
  else
    let call : UpdateCall :=
      ⟨application_name, env_name, "aws:autoscaling:launchconfiguration", "InstanceType", target_type⟩
    match updateErr with
    | none => ⟨true, [call], ["[DOWNGRADE] Update sent for " ++ env_name ++ " -> " ++ target_type]⟩
    | some (.client e) => ⟨false, [call], ["[DOWNGRADE] AWS Client Error for " ++ env_name ++ ": " ++ e]⟩
    | some (.other e) => ⟨false, [call], ["[DOWNGRADE] Unexpected error for " ++ env_name ++ ": " ++ e]⟩

/-- Python `repr` of the optional mode, as interpolated by
`f"Starting EB updates. mode={mode!r}"` (line 215). -/
def pyReprMode : Option String → String
  | none => "None"
  | some s => "\x27" ++ s ++ "\x27"

/-- Lines 234-239, the per-environment body of the mode-absent branch of
`lambda_handler`: try the upgrade, and run the downgrade only when the
upgrade returned a falsy value and the degrade configuration is set.
Returns the issued update calls, the logged messages, the final
`did_upgrade` value, and whether the downgrade operation was entered.
`upErr`/`degErr` script the fates of the two possible update calls. -/
def processEnvNoMode (env : ScanResult)
    (application_name upgrade_tag_key upgrade_instance_type degrade_tag_key degrade_instance_type : String)
    (upErr degErr : Option ApiErr) :
    List UpdateCall × List String × Bool × Bool :=
  let upOutcome :=
    if upgrade_tag_key ≠ "" ∧ upgrade_instance_type ≠ "" then
      initiate_eb_environment_upgrade env application_name upgrade_tag_key upgrade_instance_type upErr
    else
      ⟨false, [], []⟩
  let did_upgrade := upOutcome.result
  let downEntered := (!did_upgrade) && degrade_tag_key != "" && degrade_instance_type != ""
  let downOutcome :=
    if downEntered then
      initiate_eb_environment_downgrade env application_name degrade_tag_key degrade_instance_type degErr
    else
      ⟨false, [], []⟩
  (upOutcome.updates ++ downOutcome.updates, upOutcome.log ++ downOutcome.log, did_upgrade, downEntered)

/-- Lines 217-241, the `try` body of the resize `lambda_handler`:
dispatch on the mode, scan, and process each scanned environment.  The
update-call fates are scripted per environment name by `upErr`/`degErr`.
Returns the issued update calls and the logged lines, in order. -/
def resizeBody (world : List EBEnvironment) (mode : Option String)
    (upErr degErr : String → Option ApiErr) : List UpdateCall × List String :=
  let startLine := "Starting EB updates. mode=" ++ pyReprMode mode
  let doneLine := "All applicable update commands have been sent. Lambda will now exit."
  let perEnv : List (List UpdateCall × List String) :=
    if mode = some "upgrade" then
      (find_tagged_environments world (some UPGRADE_TAG_KEY) none).map (fun env =>
        if UPGRADE_TAG_KEY ≠ "" ∧ UPGRADE_INSTANCE_TYPE ≠ "" then
          let o := initiate_eb_environment_upgrade env APPLICATION_NAME UPGRADE_TAG_KEY
            UPGRADE_INSTANCE_TYPE (upErr env.name)
          (o.updates, o.log)
        else ([], []))
    else if mode = some "downgrade" then
      (find_tagged_environments world none (some DEGRADE_TAG_KEY)).map (fun env =>
        if DEGRADE_TAG_KEY ≠ "" ∧ DEGRADE_INSTANCE_TYPE ≠ "" then
          let o := initiate_eb_environment_downgrade env APPLICATION_NAME DEGRADE_TAG_KEY
            DEGRADE_INSTANCE_TYPE (degErr env.name)
          (o.updates, o.log)
        else ([], []))
    else
      (find_tagged_environments world (some UPGRADE_TAG_KEY) (some DEGRADE_TAG_KEY)).map (fun env =>
        let r := processEnvNoMode env APPLICATION_NAME UPGRADE_TAG_KEY UPGRADE_INSTANCE_TYPE
          DEGRADE_TAG_KEY DEGRADE_INSTANCE_TYPE (upErr env.name) (degErr env.name)
        (r.1, r.2.1))
  ((perEnv.map (fun p => p.1)).flatten,
   startLine :: (perEnv.map (fun p => p.2)).flatten ++ [doneLine])

/-- Outcome of running the `try` body of the resize handler, as the
`except`/`finally` wrapper of lines 243-257 observes it: the lines the
body appended to the global `log_lines`, the update calls it issued, and
the exception it raised, if any (`none` = normal completion).  The pure
pipeline `resizeBody` never raises; quantifying over an arbitrary outcome
models an unhandled exception part-way through the body. -/
structure BodyOutcome where
  lines : List String
  updates : List UpdateCall
  exn : Option String
deriving Repr, DecidableEq

/-- One S3 `put_object` issued by `upload_logs_to_s3`; the body bytes are
kept as the list of log lines the handler serialized (the source joins
them with a newline and UTF-8-encodes, which is injective on lines). -/
structure S3Upload where
  bucket : String
  key : String
  content : List String
deriving Repr, DecidableEq

/-- Everything observable about one run of the resize `lambda_handler`. -/
structure ResizeRunResult where
  uploads : List S3Upload
  updates : List UpdateCall
  log_lines_after : List String
  response : Option (Nat × String)
  error : Option String
deriving Repr, DecidableEq

/-- Lines 200-257 of `non-prod-lambda.py`: the `try`/`except`/`finally`
skeleton of `lambda_handler`, for an arbitrary body outcome.
`prior` is the content of the module-global `log_lines` when the run
starts (a reused process keeps the lines of earlier runs, since the
source never empties the list — the `finally` block only removes the
handler).  On an exception the `except` clause logs one more line and
re-raises; the `finally` block then serializes the whole global list
once, uploads it to the archive key and to the latest key, and removes
the memory handler.  The two success lines `upload_logs_to_s3` logs stay
in the global list for the next run. -/
def resizeHandlerRun (prior : List String) (b : BodyOutcome)
    (bucket dated_key latest_key : String) : ResizeRunResult :=
  let afterBody := prior ++ b.lines ++
    (match b.exn with
     | some e => ["Something unexpected happened during execution: " ++ e]
     | none => [])
  let content := afterBody
  let afterUploads := afterBody ++
    ["Archived Log uploaded to s3://" ++ bucket ++ "/" ++ dated_key,
     "Latest Log uploaded to s3://" ++ bucket ++ "/" ++ latest_key]
  { uploads := [⟨bucket, dated_key, content⟩, ⟨bucket, latest_key, content⟩],
    updates := b.updates,
    log_lines_after := afterUploads,
    response :=
      match b.exn with
      | none => some (200, "\"Commands sent. Check the EB console and S3 logs for details.\"")
      | some _ => none,
    error := b.exn }

/-- One full run of the resize `lambda_handler` with the pure pipeline as
its body: the handler starts from the inherited global `log_lines`
(`prior`), runs the scan-and-resize pipeline, and flushes the log in the
`finally` block.  `dated_key`/`latest_key` stand for the two S3 keys
computed at lines 250-251. -/
def resize_run (prior : List String) (world : List EBEnvironment) (mode : Option String)
    (upErr degErr : String → Option ApiErr) (bucket dated_key latest_key : String) :
    ResizeRunResult :=
  let body := resizeBody world mode upErr degErr
  resizeHandlerRun prior ⟨body.2, body.1, none⟩ bucket dated_key latest_key

end NonProdLambda

namespace NonProdLambda1

/-- An EC2 instance as the AWS API reports it: identifier, tag list, and
the instance-state name at listing time. -/
structure Ec2Instance where
  instanceId : String
  tags : List (String × String)
  state : String
deriving Repr, DecidableEq

/-- A reservation groups the instances a `describe_instances` response
returns together; the handler iterates `Reservations` then
`Instances`. -/
abbrev Reservation := List Ec2Instance

/-- First tag value for a key, mirroring the
`for tag in Tags: if tag[Key] == k: return tag[Value]` scans of the
source (AWS tag keys are unique per resource). -/
def tagLookup (tags : List (String × String)) (k : String) : Option String :=
  (tags.find? (fun kv => kv.1 == k)).map (fun kv => kv.2)

/-- Lines 26-67, `get_tagged_ec2_instances_by_state`, together with the
EC2 filter semantics of the single `describe_instances` call it issues:
state `running` selects on the `CNTRL-STOP` tag, state `stopped` on the
`CNTRL-START` tag (the source raises on any other flag and is only called
with these two); an instance matches when its state equals the flag and
its control-tag value is literally one of the filter values
`"true"`/`"True"` (EC2 tag filters compare exactly, with no trimming and
no general case folding).  Reservations that end up with no matching
instance are not returned. -/
def get_tagged_ec2_instances_by_state (world : List Reservation)
    (ec2_state_flag : String) : List Reservation :=
  let target_tag_key := if ec2_state_flag == "running" then "CNTRL-STOP" else "CNTRL-START"
  (world.map (fun r => r.filter (fun i =>
    i.state == ec2_state_flag &&
    i.tags.any (fun kv => kv.1 == target_tag_key && (kv.2 == "true" || kv.2 == "True"))))).filter
    (fun r => !r.isEmpty)

/-- Lines 146-175, `instance_name_from_id`: describe the instance by id
and return the value of its `Name` tag; the implicit `return None` covers
both a missing instance and a missing `Name` tag. -/
def instance_name_from_id (world : List Ec2Instance) (reference_id : String) : Option String :=
  match world.find? (fun i => i.instanceId == reference_id) with
  | none => none
  | some i => tagLookup i.tags "Name"

/-- One entry of the global `text_file_content` list: either a raw
append (lines 339, 516, 517) or a `text_append` entry, which the source
formats as `level ++ "  [" ++ ctime ++ "] " ++ text`; the wall-clock
timestamp is irrelevant to every claim and is left out of the
structure. -/
inductive LogEntry where
  | raw (s : String)
  | leveled (level text : String)
deriving Repr, DecidableEq

/-- Lines 178-203, `log_refreshed_instance_state`: find the `Name` tag of
the snapshot instance and log the refreshed state, warning on the
transitional states and logging critically on `shutting-down`; an
instance without a `Name` tag logs nothing. -/
def log_refreshed_instance_state (inst : Ec2Instance) (new_state : String) : List LogEntry :=
  match tagLookup inst.tags "Name" with
  | none => []
  | some nm =>
    [.leveled "[INFO]" ("New State :" ++ new_state ++ ", INSTANCE NAME :" ++ nm)] ++
    (if new_state == "pending" || new_state == "stopping" then
      [.leveled "[WARNING]"
        ("It is not recommended to interupt this instance state by rerunning the Lambda---> " ++ new_state)]
     else []) ++
    (if new_state == "shutting-down" then
      [.leveled "[CRITICAL]"
        ("This instance is in getting terminated state. Kindly address this to the Infra Admin" ++ new_state)]
     else [])

/-- The convergence poll loop (lines 421-432 for stop, 489-499 for
start): sleep one time unit, re-query the instance state, and exit only
when the queried state equals the target.  The scripted list holds the
states successive queries return; the result is the number of queries
issued and the unconsumed remainder of the script, or `none` when the
target never appears in the script — in the source the loop would then
keep polling beyond the scripted states. -/
def pollUntilState (target : String) : List String → Option (Nat × List String)
  | [] => none
  | s :: rest =>
    if s = target then some (1, rest)
    else
      match pollUntilState target rest with
      | none => none
      | some (n, r) => some (n + 1, r)

/-- Ways a run of the start/stop handler can fail to complete normally in
this model: `typeError` is Python's `TypeError` from concatenating a
string with the `None` that `instance_name_from_id` returned;
`outOfScript` means a state query ran past the scripted states (in
particular a poll whose target never appears, which the source turns
into an unbounded loop). -/
inductive RunError where
  | typeError
  | outOfScript
deriving Repr, DecidableEq

/-- Mutable state the handler threads along: the `text_file_content`
accumulator, the stop/start calls issued, the state queries issued (one
entry per query, carrying the instance id), the unconsumed state scripts
per instance id, and the `operated_instance_count` counter. -/
structure HS where
  log : List LogEntry
  stopCalls : List String
  startCalls : List String
  stateQueries : List String
  scripts : List (String × List String)
  operated : Nat
deriving Repr, DecidableEq

/-- Remaining scripted states for an instance id. -/
def scriptOf (scripts : List (String × List String)) (id : String) : List String :=
  ((scripts.find? (fun p => p.1 == id)).map (fun p => p.2)).getD []

/-- Replace the remaining script of an instance id. -/
def setScript (scripts : List (String × List String)) (id : String) (l : List String) :
    List (String × List String) :=
  scripts.map (fun p => if p.1 == id then (p.1, l) else p)

/-- One `refresh_instance_state` call (lines 205-243) for an id the
listing produced: consume the next scripted state; `none` when the
script is exhausted. -/
def takeState (scripts : List (String × List String)) (id : String) :
    Option (String × List (String × List String)) :=
  match scriptOf scripts id with
  | [] => none
  | s :: rest => some (s, setScript scripts id rest)

/-- Search `Reservations`/`Instances` of a listing for an instance id,
as the nested loops at lines 410-413 and 480-482 do. -/
def findInListing (listing : List Reservation) (id : String) : Option Ec2Instance :=
  (listing.flatten).find? (fun i => i.instanceId == id)

/-- Phase 1 of the auto-stop pass (lines 371-383): for each instance of
the stop listing, in discovery order, attempt `stop_instances` (lines
70-107) and record the confirmation flag next to the id.  `stopOk`
scripts whether each call succeeds and `stopErr` the `str(e)` of a
failing one. -/
def stopQueue (stopOk : String → Bool) (listing : List Reservation) : List (String × Bool) :=
  (listing.flatten).map (fun i => (i.instanceId, stopOk i.instanceId))

/-- Log entries of one `stop_single_ec2_instance` call (lines 70-107). -/
def stopAttemptLog (stopOk : String → Bool) (stopErr : String → String) (id : String) :
    List LogEntry :=
  if stopOk id then
    [.leveled "[INFO]" ("ATTEMPTING STOP ON INSTANCE ID :" ++ id)]
  else
    [.leveled "[ERROR]" ("ERROR STOPPING INSTANCE ID :" ++ id),
     .leveled "[ERROR]" ("ERROR STOPPING INSTANCE ID : " ++ id ++ " | Exception: " ++ stopErr id)]

/-- Phase 2 of the auto-stop pass (lines 389-436), processing the queue
from its last element (LIFO); the argument list is the queue already
reversed, head first.  `stale` is the leftover phase-1 loop variable
`confirm_action` that guards the poll loop at line 421 — the flag of the
most recently enumerated instance, not of the instance being processed.
Every branch first concatenates the live `Name` tag of the processed id
into a log message, which raises `TypeError` when
`instance_name_from_id` returned `None`. -/
def stopPhase2 (world : List Ec2Instance) (listing : List Reservation) (stale : Bool) :
    List (String × Bool) → HS → Except RunError HS
  | [], st => .ok st
  | (id, flag) :: rest, st =>
    match instance_name_from_id world id with
    | none => .error .typeError
    | some nm =>
      if flag = false then
        stopPhase2 world listing stale rest
          { st with log := st.log ++
              [.leveled "[CRITICAL]" ("STOP ACTION DENIED for INSTANCE ID :" ++ id ++ ", Name : " ++ nm)] }
      else
        let st1 : HS := { st with log := st.log ++
          [.leveled "[INFO]" ("STOPPING INSTANCE ID :" ++ id ++ ", Name : " ++ nm)] }
        match findInListing listing id with
        | none => stopPhase2 world listing stale rest st1
        | some inst =>
          match takeState st1.scripts id with
          | none => .error .outOfScript
          | some (s0, scr1) =>
            let st2 : HS :=
              { st1 with
                scripts := scr1,
                stateQueries := st1.stateQueries ++ [id],
                log := st1.log ++ log_refreshed_instance_state inst s0 }
            if stale then
              match pollUntilState "stopped" (scriptOf st2.scripts id) with
              | none => .error .outOfScript
              | some (n, remaining) =>
                match instance_name_from_id world id with
                | none => .error .typeError
                | some nm2 =>
                  stopPhase2 world listing stale rest
                    { st2 with
                      scripts := setScript st2.scripts id remaining,
                      stateQueries := st2.stateQueries ++ List.replicate n id,
                      log := st2.log ++
                        [.leveled "[INFO]" ("CONFIRMED STOPPED STATE :" ++ id ++ ", Name : " ++ nm2)],
                      operated := st2.operated + 1 }
            else
              stopPhase2 world listing stale rest st2

/-- Phase 1 of the auto-start pass (lines 458-466): attempt
`start_instances` (lines 109-144) for each instance of the start listing
and queue its id. -/
def startQueue (listing : List Reservation) : List String :=
  (listing.flatten).map (fun i => i.instanceId)

/-- Log entries of one `start_single_ec2_instance` call (lines
109-144). -/
def startAttemptLog (startOk : String → Bool) (startErr : String → String) (id : String) :
    List LogEntry :=
  if startOk id then
    [.leveled "[INFO]" ("ATTEMPTING START ON INSTANCE ID :" ++ id)]
  else
    [.leveled "[ERROR]" ("ERROR STARTING INSTANCE ID :" ++ id),
     .leveled "[ERROR]" ("ERROR STARTING INSTANCE ID : " ++ id ++ " | Exception: " ++ startErr id)]

/-- Phase 2 of the auto-start pass (lines 470-502), LIFO over the queue
(argument already reversed, head first).  The inner lookup at line 480
iterates `reservation[Instances]` where `reservation` is the leftover
variable of the phase-1 loop at line 458 — the last reservation of the
start listing — so only ids found in that reservation are polled.  Line
472 concatenates the live `Name` tag, raising `TypeError` when it is
`None`; line 476 issues a state query and line 477 counts the instance
as operated before any poll. -/
def startPhase2 (world : List Ec2Instance) (lastReservation : Reservation) :
    List String → HS → Except RunError HS
  | [], st => .ok st
  | id :: rest, st =>
    match instance_name_from_id world id with
    | none => .error .typeError
    | some nm =>
      let st1 : HS := { st with log := st.log ++
        [.leveled "[INFO]" ("STARTED INSTANCE ID :" ++ id ++ ", Name : " ++ nm)] }
      match takeState st1.scripts id with
      | none => .error .outOfScript
      | some (_, scr1) =>
        let st2 : HS :=
          { st1 with
            scripts := scr1,
            stateQueries := st1.stateQueries ++ [id],
            operated := st1.operated + 1 }
        match lastReservation.find? (fun i => i.instanceId == id) with
        | none => startPhase2 world lastReservation rest st2
        | some inst =>
          match takeState st2.scripts id with
          | none => .error .outOfScript
          | some (s1, scr2) =>
            let st3 : HS :=
              { st2 with
                scripts := scr2,
                stateQueries := st2.stateQueries ++ [id],
                log := st2.log ++ log_refreshed_instance_state inst s1 }
            match pollUntilState "running" (scriptOf st3.scripts id) with
            | none => .error .outOfScript
            | some (n, remaining) =>
              match instance_name_from_id world id with
              | none => .error .typeError
              | some nm2 =>
                startPhase2 world lastReservation rest
                  { st3 with
                    scripts := setScript st3.scripts id remaining,
                    stateQueries := st3.stateQueries ++ List.replicate n id,
                    log := st3.log ++
                      [.leveled "[INFO]" ("CONFIRMED STARTED STATE :" ++ id ++ ", Name : " ++ nm2)] }

/-- Input of one run of the start/stop `lambda_handler`: the EC2 world as
reservations of instances, the current UTC hour (`time.gmtime()[3]`),
the scripted outcomes of the stop/start calls and the error texts of the
failing ones, the scripted state sequences each instance's successive
state queries return, the inherited content of the global
`text_file_content`, and the elapsed-seconds text of line 516. -/
structure RunInput where
  reservations : List Reservation
  hour : Nat
  stopOk : String → Bool
  startOk : String → Bool
  stopErr : String → String
  startErr : String → String
  scripts : List (String × List String)
  prior : List LogEntry
  elapsed : String

/-- Everything observable about one normally completed run of the
start/stop handler: the content committed to S3 by `text_file_commit`,
the global accumulator after the final `clear()`, the calls issued, and
the operated-instance counter. -/
structure RunResult where
  committed : List LogEntry
  text_file_content_after : List LogEntry
  stopCalls : List String
  startCalls : List String
  stateQueries : List String
  operated : Nat
  statusCode : Nat
deriving Repr, DecidableEq

/-- Lines 301-529, `lambda_handler` of `non-prod-lambda1.py`: list the
stop and start candidates, run the auto-stop pass when the hour is 14
and the auto-start pass when the hour is 2 (logging the
will-only-be-triggered line otherwise), append the execution summary,
commit the accumulated log to S3, clear the global accumulator, and
return status 200.  An exhausted state script or a `None` instance name
aborts the model run with the corresponding `RunError`. -/
def lambda_handler (inp : RunInput) : Except RunError RunResult :=
  let stopListing := get_tagged_ec2_instances_by_state inp.reservations "running"
  let startListing := get_tagged_ec2_instances_by_state inp.reservations "stopped"
  let world := inp.reservations.flatten
  let s0 : HS :=
    { log := inp.prior ++
        [.raw "<--------------------LOGS STARTED------------------->",
         .leveled "[INFO]" "Lambda Execution Started"],
      stopCalls := [], startCalls := [], stateQueries := [],
      scripts := inp.scripts, operated := 0 }
  let stopStep : Except RunError HS :=
    if inp.hour = 14 then
      let q := stopQueue inp.stopOk stopListing
      let s1 : HS := { s0 with
        log := s0.log ++ [.leveled "[INFO]" "Auto-Stop passed Time check"] ++
          ((stopListing.flatten).map (fun i =>
            stopAttemptLog inp.stopOk inp.stopErr i.instanceId)).flatten,
        stopCalls := (stopListing.flatten).map (fun i => i.instanceId) }
      let stale := ((q.getLast?).map (fun p => p.2)).getD false
      stopPhase2 world stopListing stale q.reverse s1
    else
      .ok { s0 with log := s0.log ++
        [.leveled "[INFO]" "Auto-Stop will Only be triggered at 8 pm IST "] }
  match stopStep with
  | .error e => .error e
  | .ok s2 =>
    let startStep : Except RunError HS :=
      if inp.hour = 2 then
        let q := startQueue startListing
        let s3 : HS := { s2 with
          log := s2.log ++ [.leveled "[INFO]" "Auto-Start passed Time check"] ++
            ((startListing.flatten).map (fun i =>
              startAttemptLog inp.startOk inp.startErr i.instanceId)).flatten,
          startCalls := (startListing.flatten).map (fun i => i.instanceId) }
        startPhase2 world ((startListing.getLast?).getD []) q.reverse s3
      else
        .ok { s2 with log := s2.log ++
          [.leveled "[INFO]" "Auto-Start will Only be triggered at 8 am IST"] }
    match startStep with
    | .error e => .error e
    | .ok s4 =>
      let finalLog := s4.log ++
        [.leveled "[INFO]" "Lambda Execution Completed",
         .leveled "[INFO]" ("Total Instances Operated : " ++ toString s4.operated),
         .raw ("Lambda Execution Time : " ++ inp.elapsed ++ " seconds"),
         .raw "<--------------------LOGS ENDED------------------->"]
      .ok { committed := finalLog,
            text_file_content_after := [],
            stopCalls := s4.stopCalls,
            startCalls := s4.startCalls,
            stateQueries := s4.stateQueries,
            operated := s4.operated,
            statusCode := 200 }

end NonProdLambda1

namespace NonProdLambda

/-- Environment used to exercise the upgrade path on concrete data: the
`auto-upgrade` tag is set (with spacing and casing that the trimmed,
case-folded comparison accepts) and the current class differs from the
upgrade target. -/
def envW1 : ScanResult := ⟨"e1", "a1", [("auto-upgrade", " True ")], some "t3a.nano"⟩

/-- Environment already at the upgrade target with both gating tags
set. -/
def envAtTarget : ScanResult :=
  ⟨"envT", "arnT", [("auto-upgrade", "true"), ("auto-degrade", "true")], some "r6a.large"⟩

/-- Environment whose `auto-upgrade` tag is set, away from the upgrade
target; drives the first run of the log-leak scenario. -/
def envLeak : EBEnvironment := ⟨"env1", "arn1", [("auto-upgrade", "true")], some "t3a.nano"⟩

/-- Environment carrying neither gating tag. -/
def envUntagged : EBEnvironment := ⟨"envB", "arnB", [("team", "x")], some "t3a.nano"⟩

/-- First run of the reused process: one tagged environment, no mode, all
API calls succeed, the global `log_lines` starts empty. -/
def leakRun1 : ResizeRunResult :=
  resize_run [] [envLeak] none (fun _ => none) (fun _ => none) S3_LOG_BUCKET "k1" "k2"

/-- Second run in the same process: the global `log_lines` starts from
what the first run left behind, and the world is empty, so the second
run's own body touches no environment. -/
def leakRun2 : ResizeRunResult :=
  resize_run leakRun1.log_lines_after [] none (fun _ => none) (fun _ => none)
    S3_LOG_BUCKET "k3" "k4"

end NonProdLambda

namespace NonProdLambda1

/-- Running instance tagged for auto-stop, with a `Name` tag; its stop
call succeeds and its scripted states are `pending, pending, stopped`. -/
def instA : Ec2Instance := ⟨"i-a", [("Name", "alpha"), ("CNTRL-STOP", "true")], "running"⟩

/-- Running instance tagged for auto-stop whose stop call fails; being
the last one enumerated, its `False` confirmation is what the leftover
`confirm_action` variable holds during phase 2. -/
def instB : Ec2Instance := ⟨"i-b", [("Name", "beta"), ("CNTRL-STOP", "true")], "running"⟩

/-- Auto-stop run at hour 14 with two candidates: the stop of `i-a`
succeeds, the stop of `i-b` fails. -/
def inpStale : RunInput :=
  { reservations := [[instA, instB]], hour := 14,
    stopOk := fun id => id == "i-a", startOk := fun _ => true,
    stopErr := fun _ => "boom", startErr := fun _ => "boom",
    scripts := [("i-a", ["pending", "pending", "stopped"]), ("i-b", [])],
    prior := [], elapsed := "0.1" }

/-- Instance with a `Name` tag whose single-candidate auto-stop run
completes normally. -/
def inst9 : Ec2Instance := ⟨"i-9", [("Name", "gamma"), ("CNTRL-STOP", "true")], "running"⟩

/-- Single-candidate auto-stop run at hour 14 that completes: the stop
succeeds and the scripted states reach `stopped`. -/
def inp9 : RunInput :=
  { reservations := [[inst9]], hour := 14,
    stopOk := fun _ => true, startOk := fun _ => true,
    stopErr := fun _ => "boom", startErr := fun _ => "boom",
    scripts := [("i-9", ["pending", "stopped"])],
    prior := [], elapsed := "1" }

/-- Run at hour 10, when neither pass is scheduled. -/
def inpWrongHour : RunInput :=
  { reservations := [[instA, instB]], hour := 10,
    stopOk := fun _ => true, startOk := fun _ => true,
    stopErr := fun _ => "boom", startErr := fun _ => "boom",
    scripts := [("i-a", ["pending", "pending", "stopped"]), ("i-b", [])],
    prior := [], elapsed := "0.1" }

/-- World holding one running instance whose `CNTRL-STOP` tag value is
`"TRUE"` — equal to `"true"` after trimming and case-folding, but not
equal to either of the literal filter values. -/
def wUpper : List Reservation := [[⟨"i-1", [("CNTRL-STOP", "TRUE")], "running"⟩]]

/-- Case-folded substring check used to state log-containment
properties. -/
def lowerHasSub (s pat : String) : Bool :=
  decide ((pat.data.map Char.toLower) <:+: (s.data.map Char.toLower))

end NonProdLambda1

namespace NonProdLambda

/-- C1: for every resource passed to the resize operation with a
non-empty tag key configured, an `update_environment` call is issued if
and only if the resource's tag value for the key equals `"true"` after
trimming and case-folding AND the current instance type differs from the
target; in all other cases no call is issued and the operation returns
`False`.  Proved for both the upgrade and the downgrade operation, for
every scripted fate of the update call. -/
theorem resize_update_iff_tag_and_diff (env : ScanResult)
    (app tag_key target : String) (updateErr : Option ApiErr) (hk : tag_key ≠ "") :
    ((initiate_eb_environment_upgrade env app tag_key target updateErr).updates ≠ [] ↔
      (pyStripLower (tagGet env.tags tag_key) = "true" ∧
        env.current_instance_type ≠ some target)) ∧
    (¬(pyStripLower (tagGet env.tags tag_key) = "true" ∧
        env.current_instance_type ≠ some target) →
      (initiate_eb_environment_upgrade env app tag_key target updateErr).result = false ∧
      (initiate_eb_environment_upgrade env app tag_key target updateErr).updates = []) ∧
    ((initiate_eb_environment_downgrade env app tag_key target updateErr).updates ≠ [] ↔
      (pyStripLower (tagGet env.tags tag_key) = "true" ∧
        env.current_instance_type ≠ some target)) ∧
    (¬(pyStripLower (tagGet env.tags tag_key) = "true" ∧
        env.current_instance_type ≠ some target) →
      (initiate_eb_environment_downgrade env app tag_key target updateErr).result = false ∧
      (initiate_eb_environment_downgrade env app tag_key target updateErr).updates = []) := by
  unfold initiate_eb_environment_upgrade initiate_eb_environment_downgrade
  rcases updateErr with _ | (e | e) <;>
    by_cases h1 : pyStripLower (tagGet env.tags tag_key) = "true" <;>
      by_cases h2 : env.current_instance_type = some target <;>
        simp_all

/-- Witness for C1 at a concrete environment: the tag value `" True "`
passes the trimmed case-folded comparison and the current class
`t3a.nano` differs from the target, so an update call is issued. -/
theorem resize_update_iff_tag_and_diff_witness :
    (initiate_eb_environment_upgrade envW1 "app" "auto-upgrade" "r6a.large" none).updates ≠ [] :=
  (resize_update_iff_tag_and_diff envW1 "app" "auto-upgrade" "r6a.large" none
    (by decide)).1.mpr (by decide)

end NonProdLambda

namespace NonProdLambda

/-- A gate check that passes pins down a tag entry that is present and
whose value is `"true"` after trimming and case-folding. -/
lemma hasTagTrue_exists_value (tags : List (String × String)) (key : Option String)
    (h : hasTagTrue tags key = true) :
    ∃ k v, truthyKey key = some k ∧ dictGet? tags k = some v ∧ pyStripLower v = "true" := by
  cases hk : truthyKey key with
  | none =>
    simp only [hasTagTrue, hk] at h
    exact absurd h (by decide)
  | some k =>
    simp only [hasTagTrue, hk, beq_iff_eq] at h
    refine ⟨k, ?_⟩
    cases hv : dictGet? tags k with
    | none =>
      rw [tagGet, hv, Option.getD_none] at h
      exact absurd h (by decide)
    | some v =>
      rw [tagGet, hv, Option.getD_some] at h
      exact ⟨v, rfl, rfl, h⟩

/-- C4: every resource descriptor the Tag Scanner returns has at least
one of the two supplied gating tag keys present with value `"true"`
under case-insensitive, trimmed comparison, and every environment
lacking both gate checks is excluded from the returned list. -/
theorem scan_returns_only_gated (envs : List EBEnvironment) (upK degK : Option String) :
    (∀ r ∈ find_tagged_environments envs upK degK,
      ∃ k v, (truthyKey upK = some k ∨ truthyKey degK = some k) ∧
        dictGet? r.tags k = some v ∧ pyStripLower v = "true") ∧
    (∀ e ∈ envs,
      hasTagTrue (toScanResult e).tags upK = false →
      hasTagTrue (toScanResult e).tags degK = false →
      toScanResult e ∉ find_tagged_environments envs upK degK) := by
  constructor
  · intro r hr
    rw [find_tagged_environments, List.mem_filterMap] at hr
    obtain ⟨e, _, hsome⟩ := hr
    simp only at hsome
    split at hsome
    · next hc =>
      obtain rfl : toScanResult e = r := Option.some.inj hsome
      rcases Bool.or_eq_true_iff.mp hc with ht | ht
      · obtain ⟨k, v, hk, hv, htr⟩ := hasTagTrue_exists_value _ _ ht
        exact ⟨k, v, Or.inl hk, hv, htr⟩
      · obtain ⟨k, v, hk, hv, htr⟩ := hasTagTrue_exists_value _ _ ht
        exact ⟨k, v, Or.inr hk, hv, htr⟩
    · exact absurd hsome (by simp)
  · intro e _ h1 h2 hmem
    rw [find_tagged_environments, List.mem_filterMap] at hmem
    obtain ⟨e2, _, hsome⟩ := hmem
    simp only at hsome
    split at hsome
    · next hc =>
      have heq : toScanResult e2 = toScanResult e := Option.some.inj hsome
      rw [heq, h1, h2] at hc
      simp at hc
    · exact absurd hsome (by simp)

/-- Witness for C4: an environment carrying neither gating tag is not in
the scan result of a concrete two-environment world. -/
theorem scan_returns_only_gated_witness :
    toScanResult envUntagged ∉
      find_tagged_environments [envLeak, envUntagged] (some UPGRADE_TAG_KEY) (some DEGRADE_TAG_KEY) :=
  (scan_returns_only_gated [envLeak, envUntagged] (some UPGRADE_TAG_KEY) (some DEGRADE_TAG_KEY)).2
    envUntagged (by decide) (by decide) (by decide)

end NonProdLambda

namespace NonProdLambda

/-- C10: `initiate_eb_environment_upgrade` and
`initiate_eb_environment_downgrade` are behaviourally identical up to log
text — on every input (and every scripted fate of the update call) they
return the same boolean, issue the same update call, and their log
messages differ only in the `[UPGRADE]` / `[DOWNGRADE]` prefix. -/
theorem upgrade_downgrade_equivalent (env : ScanResult) (app k target : String)
    (err : Option ApiErr) :
    (initiate_eb_environment_upgrade env app k target err).result =
      (initiate_eb_environment_downgrade env app k target err).result ∧
    (initiate_eb_environment_upgrade env app k target err).updates =
      (initiate_eb_environment_downgrade env app k target err).updates ∧
    ∃ msgs : List String,
      (initiate_eb_environment_upgrade env app k target err).log =
        msgs.map (fun m => "[UPGRADE] " ++ m) ∧
      (initiate_eb_environment_downgrade env app k target err).log =
        msgs.map (fun m => "[DOWNGRADE] " ++ m) := by
  simp only [initiate_eb_environment_upgrade, initiate_eb_environment_downgrade]
  rcases err with _ | (e | e) <;> split_ifs
  · exact ⟨rfl, rfl, [env.name ++ ": no tag key configured; skipping."],
      by simp [String.append_assoc], by simp [String.append_assoc]⟩
  · exact ⟨rfl, rfl, [env.name ++ ": tag " ++ k ++ " != \x27true\x27; skipping."],
      by simp [String.append_assoc], by simp [String.append_assoc]⟩
  · exact ⟨rfl, rfl, [env.name ++ ": already " ++ target ++ "; skipping."],
      by simp [String.append_assoc], by simp [String.append_assoc]⟩
  · exact ⟨rfl, rfl, ["Update sent for " ++ env.name ++ " -> " ++ target],
      by (simp [String.append_assoc]; rfl), by (simp [String.append_assoc]; rfl)⟩
  · exact ⟨rfl, rfl, [env.name ++ ": no tag key configured; skipping."],
      by simp [String.append_assoc], by simp [String.append_assoc]⟩
  · exact ⟨rfl, rfl, [env.name ++ ": tag " ++ k ++ " != \x27true\x27; skipping."],
      by simp [String.append_assoc], by simp [String.append_assoc]⟩
  · exact ⟨rfl, rfl, [env.name ++ ": already " ++ target ++ "; skipping."],
      by simp [String.append_assoc], by simp [String.append_assoc]⟩
  · exact ⟨rfl, rfl, ["AWS Client Error for " ++ env.name ++ ": " ++ e],
      by (simp [String.append_assoc]; rfl), by (simp [String.append_assoc]; rfl)⟩
  · exact ⟨rfl, rfl, [env.name ++ ": no tag key configured; skipping."],
      by simp [String.append_assoc], by simp [String.append_assoc]⟩
  · exact ⟨rfl, rfl, [env.name ++ ": tag " ++ k ++ " != \x27true\x27; skipping."],
      by simp [String.append_assoc], by simp [String.append_assoc]⟩
  · exact ⟨rfl, rfl, [env.name ++ ": already " ++ target ++ "; skipping."],
      by simp [String.append_assoc], by simp [String.append_assoc]⟩
  · exact ⟨rfl, rfl, ["Unexpected error for " ++ env.name ++ ": " ++ e],
      by (simp [String.append_assoc]; rfl), by (simp [String.append_assoc]; rfl)⟩

end NonProdLambda

namespace NonProdLambda

/-- An environment already at the upgrade target never gets an update
call from the upgrade operation, which returns `False`. -/
lemma upgrade_at_target_skips (env : ScanResult) (app k target : String)
    (err : Option ApiErr) (h : env.current_instance_type = some target) :
    (initiate_eb_environment_upgrade env app k target err).updates = [] ∧
    (initiate_eb_environment_upgrade env app k target err).result = false := by
  simp only [initiate_eb_environment_upgrade]
  split_ifs <;> simp_all

/-- C7: in the mode-absent branch of the resize handler, for every
scanned environment the upgrade operation runs first and the downgrade
operation is entered exactly when the upgrade returned `False`; an
environment already at the upgrade target gets zero update calls from
the upgrade path and its degrade tag is still evaluated. -/
theorem resize_nomode_order_and_gate (env : ScanResult) (upErr degErr : Option ApiErr) :
    ((processEnvNoMode env APPLICATION_NAME UPGRADE_TAG_KEY UPGRADE_INSTANCE_TYPE
        DEGRADE_TAG_KEY DEGRADE_INSTANCE_TYPE upErr degErr).2.2.2 =
      !(initiate_eb_environment_upgrade env APPLICATION_NAME UPGRADE_TAG_KEY
          UPGRADE_INSTANCE_TYPE upErr).result) ∧
    ((processEnvNoMode env APPLICATION_NAME UPGRADE_TAG_KEY UPGRADE_INSTANCE_TYPE
        DEGRADE_TAG_KEY DEGRADE_INSTANCE_TYPE upErr degErr).1 =
      (initiate_eb_environment_upgrade env APPLICATION_NAME UPGRADE_TAG_KEY
          UPGRADE_INSTANCE_TYPE upErr).updates ++
        (if (initiate_eb_environment_upgrade env APPLICATION_NAME UPGRADE_TAG_KEY
              UPGRADE_INSTANCE_TYPE upErr).result = false then
          (initiate_eb_environment_downgrade env APPLICATION_NAME DEGRADE_TAG_KEY
              DEGRADE_INSTANCE_TYPE degErr).updates
         else [])) ∧
    ((processEnvNoMode env APPLICATION_NAME UPGRADE_TAG_KEY UPGRADE_INSTANCE_TYPE
        DEGRADE_TAG_KEY DEGRADE_INSTANCE_TYPE upErr degErr).2.1 =
      (initiate_eb_environment_upgrade env APPLICATION_NAME UPGRADE_TAG_KEY
          UPGRADE_INSTANCE_TYPE upErr).log ++
        (if (initiate_eb_environment_upgrade env APPLICATION_NAME UPGRADE_TAG_KEY
              UPGRADE_INSTANCE_TYPE upErr).result = false then
          (initiate_eb_environment_downgrade env APPLICATION_NAME DEGRADE_TAG_KEY
              DEGRADE_INSTANCE_TYPE degErr).log
         else [])) ∧
    (env.current_instance_type = some UPGRADE_INSTANCE_TYPE →
      (initiate_eb_environment_upgrade env APPLICATION_NAME UPGRADE_TAG_KEY
          UPGRADE_INSTANCE_TYPE upErr).updates = [] ∧
      (initiate_eb_environment_upgrade env APPLICATION_NAME UPGRADE_TAG_KEY
          UPGRADE_INSTANCE_TYPE upErr).result = false ∧
      (processEnvNoMode env APPLICATION_NAME UPGRADE_TAG_KEY UPGRADE_INSTANCE_TYPE
          DEGRADE_TAG_KEY DEGRADE_INSTANCE_TYPE upErr degErr).2.2.2 = true) := by
  have hg : UPGRADE_TAG_KEY ≠ "" ∧ UPGRADE_INSTANCE_TYPE ≠ "" := by decide
  refine ⟨?_, ?_, ?_, ?_⟩
  · simp only [processEnvNoMode, if_pos hg]
    cases hres : (initiate_eb_environment_upgrade env APPLICATION_NAME UPGRADE_TAG_KEY
        UPGRADE_INSTANCE_TYPE upErr).result <;>
      simp [hres, DEGRADE_TAG_KEY, DEGRADE_INSTANCE_TYPE]
  · simp only [processEnvNoMode, if_pos hg]
    cases hres : (initiate_eb_environment_upgrade env APPLICATION_NAME UPGRADE_TAG_KEY
        UPGRADE_INSTANCE_TYPE upErr).result <;>
      simp [hres, DEGRADE_TAG_KEY, DEGRADE_INSTANCE_TYPE]
  · simp only [processEnvNoMode, if_pos hg]
    cases hres : (initiate_eb_environment_upgrade env APPLICATION_NAME UPGRADE_TAG_KEY
        UPGRADE_INSTANCE_TYPE upErr).result <;>
      simp [hres, DEGRADE_TAG_KEY, DEGRADE_INSTANCE_TYPE]
  · intro h
    obtain ⟨hu, hr⟩ := upgrade_at_target_skips env APPLICATION_NAME UPGRADE_TAG_KEY
      UPGRADE_INSTANCE_TYPE upErr h
    refine ⟨hu, hr, ?_⟩
    simp only [processEnvNoMode, if_pos hg]
    simp [hr, DEGRADE_TAG_KEY, DEGRADE_INSTANCE_TYPE]

/-- Witness for C7 at a concrete environment already at the upgrade
target with both gating tags set: zero upgrade update calls and the
downgrade operation is still entered. -/
theorem resize_nomode_order_and_gate_witness :
    (initiate_eb_environment_upgrade envAtTarget APPLICATION_NAME UPGRADE_TAG_KEY
        UPGRADE_INSTANCE_TYPE none).updates = [] ∧
    (initiate_eb_environment_upgrade envAtTarget APPLICATION_NAME UPGRADE_TAG_KEY
        UPGRADE_INSTANCE_TYPE none).result = false ∧
    (processEnvNoMode envAtTarget APPLICATION_NAME UPGRADE_TAG_KEY UPGRADE_INSTANCE_TYPE
        DEGRADE_TAG_KEY DEGRADE_INSTANCE_TYPE none none).2.2.2 = true :=
  (resize_nomode_order_and_gate envAtTarget none none).2.2.2 (by decide)

end NonProdLambda

namespace NonProdLambda

/-- C6: on every execution path of the resize handler — normal completion
or an unhandled exception in the main body — exactly one archive upload
and one "latest" upload are attempted, both with identical content; on
normal completion the handler returns `statusCode 200` with its fixed
body, and an exception propagates to the caller only after both uploads
were attempted.  Stated over an arbitrary body outcome for the
`try`/`except`/`finally` skeleton, and instantiated with the actual
scan-and-resize pipeline for the normal path. -/
theorem resize_flush_on_every_path (prior : List String) (b : BodyOutcome)
    (bucket dk lk : String) (world : List EBEnvironment) (mode : Option String)
    (upErr degErr : String → Option ApiErr) :
    (∃ c : List String,
      (resizeHandlerRun prior b bucket dk lk).uploads = [⟨bucket, dk, c⟩, ⟨bucket, lk, c⟩] ∧
      (resizeHandlerRun prior b bucket dk lk).error = b.exn ∧
      (resizeHandlerRun prior b bucket dk lk).response =
        (match b.exn with
         | none => some (200, "\"Commands sent. Check the EB console and S3 logs for details.\"")
         | some _ => none)) ∧
    (∃ c2 : List String,
      (resize_run prior world mode upErr degErr bucket dk lk).uploads =
        [⟨bucket, dk, c2⟩, ⟨bucket, lk, c2⟩] ∧
      (resize_run prior world mode upErr degErr bucket dk lk).error = none ∧
      (resize_run prior world mode upErr degErr bucket dk lk).response =
        some (200, "\"Commands sent. Check the EB console and S3 logs for details.\"")) :=
  ⟨⟨_, rfl, rfl, rfl⟩, ⟨_, rfl, rfl, rfl⟩⟩

/-- C2 fails on the code: `non-prod-lambda.py` never empties the global
`log_lines` (the `finally` block only removes the handler), so in a
reused process the second run's uploads begin with the first run's
lines.  Here the first run resized `env1` and logged its update line;
the second run's world is empty, yet both of its uploads contain that
line from the previous run. -/
theorem resize_log_leak_across_runs :
    "[UPGRADE] Update sent for env1 -> r6a.large" ∈ leakRun1.log_lines_after ∧
    leakRun2.updates = [] ∧
    (∀ u ∈ leakRun2.uploads, "[UPGRADE] Update sent for env1 -> r6a.large" ∈ u.content) ∧
    leakRun2.log_lines_after ≠ [] := by decide

end NonProdLambda

namespace NonProdLambda1

/-- C5: a run of the start/stop handler at any hour other than 14 and 2
issues no stop call, no start call and no state query, completes
normally, and its accumulated log contains both will-only-be-triggered
lines — one from the stop pass and one from the start pass — each of
which contains the phrase "will only be triggered" up to case. -/
theorem wrong_hour_no_calls (inp : RunInput) (h14 : inp.hour ≠ 14) (h2 : inp.hour ≠ 2) :
    ∃ r : RunResult, lambda_handler inp = .ok r ∧
      r.stopCalls = [] ∧ r.startCalls = [] ∧ r.stateQueries = [] ∧
      LogEntry.leveled "[INFO]" "Auto-Stop will Only be triggered at 8 pm IST " ∈ r.committed ∧
      LogEntry.leveled "[INFO]" "Auto-Start will Only be triggered at 8 am IST" ∈ r.committed ∧
      lowerHasSub "Auto-Stop will Only be triggered at 8 pm IST " "will only be triggered" = true ∧
      lowerHasSub "Auto-Start will Only be triggered at 8 am IST" "will only be triggered" = true := by
  simp only [lambda_handler, if_neg h14, if_neg h2]
  exact ⟨_, rfl, rfl, rfl, rfl, by simp, by simp, by decide, by decide⟩

/-- Witness for C5: the concrete run at hour 10. -/
theorem wrong_hour_no_calls_witness :
    ∃ r : RunResult, lambda_handler inpWrongHour = .ok r ∧
      r.stopCalls = [] ∧ r.startCalls = [] ∧ r.stateQueries = [] ∧
      LogEntry.leveled "[INFO]" "Auto-Stop will Only be triggered at 8 pm IST " ∈ r.committed ∧
      LogEntry.leveled "[INFO]" "Auto-Start will Only be triggered at 8 am IST" ∈ r.committed ∧
      lowerHasSub "Auto-Stop will Only be triggered at 8 pm IST " "will only be triggered" = true ∧
      lowerHasSub "Auto-Start will Only be triggered at 8 am IST" "will only be triggered" = true :=
  wrong_hour_no_calls inpWrongHour (by decide) (by decide)

end NonProdLambda1

namespace NonProdLambda1

/-- C8 fails on the code: the single filtered listing call uses the
literal filter values `true` and `True`, with no trimming and no general
case folding, so a running instance whose control-tag value is `"TRUE"`
— equal to `"true"` under the trimmed case-folded comparison the rest of
the system uses — is not selected. -/
theorem finder_misses_folded_true :
    NonProdLambda.pyStripLower "TRUE" = "true" ∧
    get_tagged_ec2_instances_by_state wUpper "running" = [] := by decide

/-- C8 as amended: the Tagged-Instance Finder's listing call selects
exactly the instances in the given state whose mapped control tag
(`CNTRL-STOP` for `running`, `CNTRL-START` for `stopped`) carries one of
the literal values `"true"` or `"True"` — an exact, untrimmed,
case-sensitive match apart from those two spellings. -/
theorem finder_selects_literal_true_only (world : List Reservation) (i : Ec2Instance) :
    (i ∈ (get_tagged_ec2_instances_by_state world "running").flatten ↔
      i ∈ world.flatten ∧ i.state = "running" ∧
        ∃ kv ∈ i.tags, kv.1 = "CNTRL-STOP" ∧ (kv.2 = "true" ∨ kv.2 = "True")) ∧
    (i ∈ (get_tagged_ec2_instances_by_state world "stopped").flatten ↔
      i ∈ world.flatten ∧ i.state = "stopped" ∧
        ∃ kv ∈ i.tags, kv.1 = "CNTRL-START" ∧ (kv.2 = "true" ∨ kv.2 = "True")) := by
  constructor <;>
  · simp only [get_tagged_ec2_instances_by_state, List.flatten_filter_not_isEmpty]
    simp only [List.mem_flatten, List.mem_map, List.mem_filter]
    constructor
    · rintro ⟨s, ⟨r, hr, rfl⟩, his⟩
      rw [List.mem_filter] at his
      obtain ⟨hir, hcond⟩ := his
      simp only [Bool.and_eq_true, beq_iff_eq, List.any_eq_true, Bool.or_eq_true] at hcond
      exact ⟨⟨r, hr, hir⟩, by simpa using hcond.1, by simpa using hcond.2⟩
    · rintro ⟨⟨r, hr, hir⟩, hstate, kv, hkv, hk, hv⟩
      refine ⟨_, ⟨r, hr, rfl⟩, ?_⟩
      rw [List.mem_filter]
      refine ⟨hir, ?_⟩
      simp only [Bool.and_eq_true, beq_iff_eq, List.any_eq_true, Bool.or_eq_true]
      exact ⟨by simpa using hstate, kv, hkv, by simp [hk], by simpa using hv⟩

end NonProdLambda1

namespace NonProdLambda1

/-- Every queue element processed by the auto-stop phase 2 had its live
`Name` tag concatenated into a log message first, so a normally
completed phase pins every processed id to a present name. -/
lemma stopPhase2_ok_names (world : List Ec2Instance) (listing : List Reservation) (stale : Bool) :
    ∀ (q : List (String × Bool)) (st st' : HS),
      stopPhase2 world listing stale q st = .ok st' →
      ∀ p ∈ q, instance_name_from_id world p.1 ≠ none := by
  intro q
  induction q with
  | nil =>
    intro st st' _ p hp
    exact absurd hp (List.not_mem_nil p)
  | cons hd tl ih =>
    intro st st' hok p hp
    obtain ⟨id, flag⟩ := hd
    simp only [stopPhase2] at hok
    rcases List.mem_cons.mp hp with rfl | hmem
    · intro hnone
      rw [hnone] at hok
      exact Except.noConfusion hok
    · cases hname : instance_name_from_id world id with
      | none =>
        rw [hname] at hok
        exact Except.noConfusion hok
      | some nm =>
        rw [hname] at hok
        simp only at hok
        repeat' split at hok
        all_goals
          first
          | exact Except.noConfusion hok
          | exact ih _ _ hok p hmem

/-- Counterpart of `stopPhase2_ok_names` for the auto-start phase 2. -/
lemma startPhase2_ok_names (world : List Ec2Instance) (lastReservation : Reservation) :
    ∀ (q : List String) (st st' : HS),
      startPhase2 world lastReservation q st = .ok st' →
      ∀ id ∈ q, instance_name_from_id world id ≠ none := by
  intro q
  induction q with
  | nil =>
    intro st st' _ id hid
    exact absurd hid (List.not_mem_nil id)
  | cons hd tl ih =>
    intro st st' hok id hid
    simp only [startPhase2] at hok
    rcases List.mem_cons.mp hid with rfl | hmem
    · intro hnone
      rw [hnone] at hok
      exact Except.noConfusion hok
    · cases hname : instance_name_from_id world hd with
      | none =>
        rw [hname] at hok
        exact Except.noConfusion hok
      | some nm =>
        rw [hname] at hok
        simp only at hok
        repeat' split at hok
        all_goals
          first
          | exact Except.noConfusion hok
          | exact ih _ _ hok id hmem

/-- C9: an instance without a `Name` tag makes `instance_name_from_id`
return `None`; processing such an instance raises a `TypeError` from
string concatenation, so the handler completes normally only when every
processed candidate — the whole stop queue at hour 14, the whole start
queue at hour 2 — resolves to a present name. -/
theorem missing_name_tag_aborts (inp : RunInput) (r : RunResult)
    (hok : lambda_handler inp = .ok r) :
    (∀ (world : List Ec2Instance) (id : String) (i : Ec2Instance),
        world.find? (fun j => j.instanceId == id) = some i →
        tagLookup i.tags "Name" = none →
        instance_name_from_id world id = none) ∧
    (∀ (world : List Ec2Instance) (listing : List Reservation) (stale : Bool)
        (id : String) (flag : Bool) (rest : List (String × Bool)) (st : HS),
        instance_name_from_id world id = none →
        stopPhase2 world listing stale ((id, flag) :: rest) st = .error .typeError) ∧
    (inp.hour = 14 →
      ∀ p ∈ stopQueue inp.stopOk (get_tagged_ec2_instances_by_state inp.reservations "running"),
        instance_name_from_id inp.reservations.flatten p.1 ≠ none) ∧
    (inp.hour = 2 →
      ∀ id ∈ startQueue (get_tagged_ec2_instances_by_state inp.reservations "stopped"),
        instance_name_from_id inp.reservations.flatten id ≠ none) := by
  refine ⟨?_, ?_, ?_, ?_⟩
  · intro world id i hfind hname
    simp only [instance_name_from_id, hfind]
    exact hname
  · intro world listing stale id flag rest st hnone
    simp only [stopPhase2, hnone]
  · intro h14 p hp
    have h2 : ¬inp.hour = 2 := by rw [h14]; decide
    simp only [lambda_handler, if_pos h14, if_neg h2] at hok
    split at hok
    · exact Except.noConfusion hok
    · next s2 heq =>
      exact stopPhase2_ok_names _ _ _ _ _ _ heq p (List.mem_reverse.mpr hp)
  · intro h2 id hid
    have h14 : ¬inp.hour = 14 := by rw [h2]; decide
    simp only [lambda_handler, if_neg h14, if_pos h2] at hok
    split at hok
    · exact Except.noConfusion hok
    · next s4 heq =>
      exact startPhase2_ok_names _ _ _ _ _ heq id (List.mem_reverse.mpr hid)

/-- Witness for C9: the completed single-candidate auto-stop run pins the
processed instance to a present `Name` tag. -/
theorem missing_name_tag_aborts_witness :
    instance_name_from_id ([[inst9]].flatten) "i-9" ≠ none :=
  (missing_name_tag_aborts inp9 _ rfl).2.2.1 rfl ("i-9", true) (by decide)

end NonProdLambda1

namespace NonProdLambda1

/-- C3 fails on the code: in the run `inpStale` (hour 14, stop of `i-a`
succeeds, stop of `i-b` — the last instance enumerated — fails), the
poll-loop guard `while True and confirm_action` reads the stale phase-1
loop variable, which holds the `False` of `i-b`, so the handler issues
its stop call for `i-a`, performs exactly one state query (the pre-poll
refresh, which returns `pending`), never polls, never observes
`stopped`, logs no confirmation, and still completes the run.  The
poller itself, when entered, does satisfy the scripted property: on
`[pending, pending, stopped]` it issues exactly 3 queries and stops. -/
theorem stale_guard_skips_polling :
    (lambda_handler inpStale).map
      (fun r => (r.stopCalls, r.stateQueries, r.operated,
        r.committed.any
          (fun e => e == .leveled "[INFO]" "CONFIRMED STOPPED STATE :i-a, Name : alpha"))) =
      .ok (["i-a", "i-b"], ["i-a"], 0, false) ∧
    pollUntilState "stopped" ["pending", "pending", "stopped"] = some (3, []) :=
  ⟨rfl, rfl⟩

end NonProdLambda1
